import Mathlib

/-!
Shallow embedding of `src/actspy.c` (a utmp/TTY activity watcher) and
verification of its specification claims.

Modelling conventions:
* `time_t` values (timestamps, the poll interval) are `Int`.
* C strings are `String`; the NULL-terminated `char **` user list is
  `List String` (end of list = the terminating NULL pointer).
* `struct stat` is reduced to the two fields the program reads,
  `st_atime` and `st_mtime`.
* utmpx entries are reduced to the three fields the program reads:
  `ut_type`, `ut_line`, `ut_user`.
* Fallible OS calls are `Option`-valued parameters of the loop
  (`ttyname` result, the per-path `stat` result).  Undefined behaviour
  that the C code can reach (passing a NULL `my_tty_path` to `strcmp`)
  is modelled as `Except.error`.
-/

namespace Actspy

/-- The `struct stat` record, restricted to the two fields actspy reads
(`st_atime`: last read = terminal input, `st_mtime`: last write =
terminal output), as `Int` seconds. -/
structure Stat where
  st_atime : Int
  st_mtime : Int
deriving DecidableEq, Repr

/-- A utmpx record, restricted to the three fields actspy reads. -/
structure UtmpEntry where
  ut_type : Nat
  ut_line : String
  ut_user : String
deriving DecidableEq, Repr

/-- The `USER_PROCESS` constant from `<utmp.h>` (value 7 on POSIX
systems); actspy skips every entry whose `ut_type` differs from it. -/
def USER_PROCESS : Nat := 7

/-- The `struct options` record from actspy.c lines 60-66.  The C `int` flags are
booleans; `watched_users` is the NULL-terminated `char **` as a list. -/
structure Options where
  poll_interval : Int
  watch_input : Bool
  watch_output : Bool
  bell : Bool
  watched_users : List String
deriving DecidableEq, Repr

/-- Function `strstrlist` (actspy.c lines 49-58): walk the NULL-terminated list,
break on the first entry `strcmp`-equal to the needle, and return the
cursor — the matching string, or NULL (here `none`) when the list is
exhausted. -/
def strstrlist : List String → String → Option String
  | [], _ => none
  | h :: t, needle => if h = needle then some h else strstrlist t needle

/-- The user filter as applied in `main` (actspy.c lines 182-185): the
session is skipped iff the watched-user list is non-empty
(`*options.watched_users`) and `strstrlist` returns NULL; it passes
otherwise.  This definition is the negation of that skip condition. -/
def userFilterPasses (watched_users : List String) (user : String) : Bool :=
  !((!watched_users.isEmpty) && (strstrlist watched_users user).isNone)

/-- The activity test of actspy.c lines 178-179:
`(options.watch_input && (tty_stat.st_atime >= last_poll)) ||
 (options.watch_output && (tty_stat.st_mtime >= last_poll))`. -/
def reportable (opts : Options) (tty_stat : Stat) (last_poll : Int) : Bool :=
  (opts.watch_input && decide (tty_stat.st_atime ≥ last_poll)) ||
    (opts.watch_output && decide (tty_stat.st_mtime ≥ last_poll))

/-- The TTY device path built at actspy.c lines 165-166: a buffer
initialised to `"/dev/"` with `ut_line` concatenated onto it. -/
def ttyPathOf (ut_line : String) : String := "/dev/" ++ ut_line

/-- A report line's variable content (actspy.c lines 192-195). -/
structure Report where
  line : String
  user : String
deriving DecidableEq, Repr

/-- One iteration of the utmp scan loop (actspy.c lines 159-197) on a
single entry.

* `my_tty` is the `ttyname(STDOUT_FILENO)` result; `none` is NULL.
* `statFn` models `stat(2)` on a path: `none` means the call failed.
* `garbage` is the indeterminate content of the uninitialised
  stack-allocated `tty_stat` buffer.  The C code never checks the
  return value of `stat` (line 177), so on failure the comparison runs
  on whatever the buffer happens to hold — hence `(statFn _).getD garbage`.
* The code passes `my_tty_path` to `strcmp` unconditionally (line 168);
  when it is NULL this is undefined behaviour, modelled as `Except.error ()`.

Returns `ok none` when the entry is skipped and `ok (some r)` when a
report line is printed for it. -/
def scanEntry (opts : Options) (my_tty : Option String)
    (statFn : String → Option Stat) (garbage : Stat)
    (last_poll : Int) (e : UtmpEntry) : Except Unit (Option Report) :=
  if e.ut_type ≠ USER_PROCESS then
    Except.ok none
  else
    match my_tty with
    | none => Except.error ()
    | some my_tty_path =>
      if my_tty_path = ttyPathOf e.ut_line then
        Except.ok none
      else
        let tty_stat := (statFn (ttyPathOf e.ut_line)).getD garbage
        if reportable opts tty_stat last_poll then
          if (!opts.watched_users.isEmpty) &&
              (strstrlist opts.watched_users e.ut_user).isNone then
            Except.ok none
          else
            Except.ok (some { line := e.ut_line, user := e.ut_user })
        else
          Except.ok none

/-- The whole utmp scan of one cycle (actspy.c lines 157-198): fold
`scanEntry` over the entries the utmpx store yields, collecting the
printed report lines in order; a crash in any iteration aborts. -/
def scanCycle (opts : Options) (my_tty : Option String)
    (statFn : String → Option Stat) (garbage : Stat)
    (last_poll : Int) : List UtmpEntry → Except Unit (List Report)
  | [] => Except.ok []
  | e :: es =>
    match scanEntry opts my_tty statFn garbage last_poll e with
    | Except.error u => Except.error u
    | Except.ok none => scanCycle opts my_tty statFn garbage last_poll es
    | Except.ok (some r) =>
      match scanCycle opts my_tty statFn garbage last_poll es with
      | Except.error u => Except.error u
      | Except.ok rs => Except.ok (r :: rs)

/-- Result of `sscanf(optarg, "%ld", ...)` as used at actspy.c line 110:
`ok v` — one conversion succeeded, value `v` stored; `fail` — matching
failure before any conversion (return value 0, the only case the code
treats as an error); `eof` — input exhausted before any conversion
(return value EOF, which the code's `== 0` test does NOT treat as an
error, leaving `poll_interval` unchanged). `%ld` skips leading
whitespace, then accepts an optional sign followed by at least one
decimal digit. -/
inductive ScanfResult where
  | ok (v : Int)
  | fail
  | eof
deriving DecidableEq, Repr

/-- Decimal value of a run of digit characters, most significant first. -/
def digitRunVal (cs : List Char) : Nat :=
  cs.foldl (fun acc c => acc * 10 + (c.toNat - '0'.toNat)) 0

/-- Model of `sscanf(s, "%ld", &x)` (actspy.c line 110). -/
def sscanf_ld (s : String) : ScanfResult :=
  let cs := s.data.dropWhile (fun c => c.isWhitespace)
  match cs with
  | [] => ScanfResult.eof
  | c :: rest =>
    if c = '-' ∨ c = '+' then
      match rest with
      | [] => ScanfResult.eof
      | d :: _ =>
        if d.isDigit then
          let n := digitRunVal (rest.takeWhile Char.isDigit)
          ScanfResult.ok (if c = '-' then -(n : Int) else (n : Int))
        else ScanfResult.fail
    else if c.isDigit then
      ScanfResult.ok (digitRunVal (cs.takeWhile Char.isDigit) : Int)
    else ScanfResult.fail

/-- The usage text printed for `-h` (actspy.c lines 92-100), with
`argv[0]` substituted for the `%s`. -/
def helpText (prog : String) : String :=
  "Usage: " ++ prog ++ " [-bhio] [-t TIME] [USER]...\n" ++
  "  -b       Ring the bell when a TTY is active.\n" ++
  "  -h       Show this help.\n" ++
  "  -i       Show when a TTY receives input data.\n" ++
  "  -o       Show when a TTY sends output data.\n" ++
  "  -t TIME  Poll interval in seconds. Default and minimum 1.\n" ++
  "  USER     Limit polling to one or more users.\n"

/-- The outcome of `options_parse` (actspy.c lines 72-135) together with
the text it wrote: `ret` is the C return value (0 success, 1 graceful
exit such as `-h`, -1 parse failure), `out` what was printed to stdout
(the help text), `err` the diagnostics printed to stderr. -/
structure ParseOutcome where
  ret : Int
  opts : Options
  out : String
  err : String
deriving DecidableEq, Repr

/-- Process the option characters of one `argv` cluster (the getopt
calls for one element such as `"-bio"`), mirroring the `switch` of
actspy.c lines 87-128 with optstring `"bhiot:"`.  `next_arg` is the
following `argv` element, used when `t` sits last in the cluster.
Returns `Sum.inl` when `options_parse` returns from inside the loop
(help or error), else the updated options and whether `next_arg` was
consumed as the `-t` argument. -/
def parseCluster (prog : String) (opts : Options) :
    List Char → Option String → ParseOutcome ⊕ (Options × Bool)
  | [], _ => Sum.inr (opts, false)
  | c :: cs, next_arg =>
    if c = 'b' then
      parseCluster prog { opts with bell := true } cs next_arg
    else if c = 'h' then
      Sum.inl { ret := 1, opts := opts, out := helpText prog, err := "" }
    else if c = 'i' then
      parseCluster prog { opts with watch_input := true } cs next_arg
    else if c = 'o' then
      parseCluster prog { opts with watch_output := true } cs next_arg
    else if c = 't' then
      -- getopt: the argument is the rest of the cluster if non-empty,
      -- otherwise the next argv element; a missing one gives '?' with
      -- optopt = 't' (opterr = 0, so getopt prints nothing itself).
      match cs, next_arg with
      | [], none =>
        Sum.inl { ret := -1, opts := opts, out := "",
                  err := "Option -t requires an argument.\n" }
      | [], some arg =>
        match sscanf_ld arg with
        | ScanfResult.fail =>
          Sum.inl { ret := -1, opts := opts, out := "",
                    err := "Invalid timestamp option -t " ++ arg ++ ".\n" }
        | ScanfResult.ok v => Sum.inr ({ opts with poll_interval := v }, true)
        | ScanfResult.eof => Sum.inr (opts, true)
      | d :: ds, _ =>
        match sscanf_ld (String.mk (d :: ds)) with
        | ScanfResult.fail =>
          Sum.inl { ret := -1, opts := opts, out := "",
                    err := "Invalid timestamp option -t " ++
                      String.mk (d :: ds) ++ ".\n" }
        | ScanfResult.ok v => Sum.inr ({ opts with poll_interval := v }, false)
        | ScanfResult.eof => Sum.inr (opts, false)
    else
      Sum.inl { ret := -1, opts := opts, out := "",
                err := "Unknown command line option -" ++ String.mk [c] ++ ".\n" }

/-- Is this argv element an option element for getopt: starts with `-`,
has at least one option character, and is not the `"--"` terminator? -/
def isOptionElement (a : String) : Bool :=
  match a.data with
  | '-' :: c :: _ => !(c = '-')
  | _ => false

/-- The `while (getopt(...))` loop of actspy.c lines 86-129 over the
remaining argv elements, followed by line 132: the arguments left after
option processing become `watched_users` (POSIX getopt stops at the
first non-option element). -/
def optionsParseGo (prog : String) (opts : Options) :
    List String → ParseOutcome
  | [] => { ret := 0, opts := { opts with watched_users := [] },
            out := "", err := "" }
  | a :: rest =>
    if isOptionElement a then
      match parseCluster prog opts (a.data.drop 1) rest.head? with
      | Sum.inl outcome => outcome
      | Sum.inr (opts', consumed_next) =>
        if consumed_next then
          match rest with
          | [] => { ret := 0, opts := { opts' with watched_users := [] },
                    out := "", err := "" }
          | _ :: rest' => optionsParseGo prog opts' rest'
        else
          optionsParseGo prog opts' rest
    else if a = "--" then
      -- getopt consumes the "--" terminator; everything after it is
      -- a positional argument.
      { ret := 0, opts := { opts with watched_users := rest },
        out := "", err := "" }
    else
      -- First non-option element: getopt returns -1, optind points here.
      { ret := 0, opts := { opts with watched_users := a :: rest },
        out := "", err := "" }

/-- Model of `options_parse(argc, argv, &options)` (actspy.c lines 72-135),
including the defaults set at lines 74-80. -/
def options_parse (argv : List String) : ParseOutcome :=
  let defaults : Options :=
    { poll_interval := 1, watch_input := false, watch_output := false,
      bell := false, watched_users := [] }
  match argv with
  | [] => optionsParseGo "" defaults []
  | prog :: args => optionsParseGo prog defaults args

/-- How `main` starts (actspy.c lines 137-150): either it returns
`EXIT_FAILURE` (= 1) before any polling — which it does for EVERY
non-zero `options_parse` return, the graceful `-h` value 1 included —
or it reaches the `do` loop with the parsed options. -/
inductive MainStart where
  | exited (code : Nat) (out : String) (err : String)
  | loops (opts : Options) (out : String) (err : String)
deriving DecidableEq, Repr

/-- The startup path of `main` (actspy.c lines 140-143): `if
(options_parse(argc, argv, &options)) return EXIT_FAILURE;`. -/
def main_start (argv : List String) : MainStart :=
  let r := options_parse argv
  if r.ret ≠ 0 then MainStart.exited 1 r.out r.err
  else MainStart.loops r.opts r.out r.err

/-- Observable steps of one iteration of the `do` loop (actspy.c lines
150-200), in program order: `capture t` is `last_poll = time(NULL)`
together with its `ctime` display rendering (lines 151-154), `sleepFor
d` is `sleep(options.poll_interval)` (line 155), `scan t` is the utmp
walk comparing every timestamp against `last_poll = t` (lines 157-198). -/
inductive Event where
  | capture (t : Int)
  | sleepFor (d : Int)
  | scan (baseline : Int)
deriving DecidableEq, Repr

/-- The order of events inside one loop iteration: the timestamp is
captured first (before the sleep), the configured interval is slept,
then the scan runs against the captured timestamp. `now` is what
`time(NULL)` returns at the top of this iteration. -/
def cycleEvents (opts : Options) (now : Int) : List Event :=
  [Event.capture now, Event.sleepFor opts.poll_interval, Event.scan now]

/-- The environment one loop iteration observes: the clock reading at
its start, the utmpx entries enumerated, the `stat` behaviour, and the
indeterminate initial content of the `tty_stat` buffer. -/
structure CycleEnv where
  now : Int
  entries : List UtmpEntry
  statFn : String → Option Stat
  garbage : Stat

/-- What one loop iteration did: its event trace, the `last_poll`
baseline it used, and the scan outcome. -/
structure CycleResult where
  events : List Event
  baseline : Int
  scanned : Except Unit (List Report)

/-- One iteration of the `do` loop (actspy.c lines 150-198): capture
`last_poll` from the clock, sleep, scan. -/
def runCycle (opts : Options) (my_tty : Option String) (env : CycleEnv) :
    CycleResult :=
  let last_poll := env.now
  { events := cycleEvents opts last_poll,
    baseline := last_poll,
    scanned := scanCycle opts my_tty env.statFn env.garbage last_poll
      env.entries }

/-- The `do ... while (!signal_caught_sigint)` loop run over a finite
list of per-iteration environments (the list length is how many
iterations happen before the SIGINT flag is seen set). -/
def runLoop (opts : Options) (my_tty : Option String) :
    List CycleEnv → List CycleResult
  | [] => []
  | env :: rest => runCycle opts my_tty env :: runLoop opts my_tty rest

/-- A concrete `-i`-only configuration (defaults otherwise). -/
def optsInputOnly : Options :=
  ⟨1, true, false, false, []⟩

/-- A concrete configuration with neither `-i` nor `-o` (all defaults). -/
def optsDefaults : Options :=
  ⟨1, false, false, false, []⟩

/-- A concrete `-i -o -b` configuration. -/
def optsAllFlags : Options :=
  ⟨1, true, true, true, []⟩

/-- A concrete configuration with poll interval 0 (what `-t 0` yields). -/
def optsIntervalZero : Options :=
  ⟨0, false, false, false, []⟩

/-- A concrete configuration with poll interval -5 (what `-t -5` yields). -/
def optsIntervalNeg : Options :=
  ⟨-5, false, false, false, []⟩

/-- A concrete cycle environment observing clock value `t`, an empty
utmpx store, and failing `stat`. -/
def envAt (t : Int) : CycleEnv :=
  ⟨t, [], fun _ => none, ⟨0, 0⟩⟩

/-! ### Helper lemmas -/

/-- Function `strstrlist` returns NULL exactly when the needle is not in the list. -/
theorem strstrlist_eq_none_iff (U : List String) (s : String) :
    strstrlist U s = none ↔ s ∉ U := by
  induction U with
  | nil => simp [strstrlist]
  | cons a t ih =>
    by_cases h : a = s
    · subst h
      simp [strstrlist]
    · simp [strstrlist, h, ih, Ne.symm h]

/-- If `scanEntry` (with a non-NULL own-terminal path) prints a report
for an entry, the report carries the entry's line and that line's device
path differs from the own-terminal path. -/
theorem scanEntry_some_inv (opts : Options) (my_path : String)
    (statFn : String → Option Stat) (garbage : Stat) (t : Int)
    (e : UtmpEntry) (r : Report)
    (h : scanEntry opts (some my_path) statFn garbage t e =
      Except.ok (some r)) :
    r.line = e.ut_line ∧ my_path ≠ ttyPathOf e.ut_line := by
  simp only [scanEntry] at h
  split at h
  case isTrue h1 => simp at h
  case isFalse h1 =>
    split at h
    case isTrue h2 => simp at h
    case isFalse h2 =>
      split at h
      case isTrue h3 =>
        split at h
        case isTrue h4 => simp at h
        case isFalse h4 =>
          cases h
          exact ⟨rfl, h2⟩
      case isFalse h3 => simp at h

/-- The baselines `runLoop` uses are exactly the clock readings at the
starts of the cycles, in order. -/
theorem runLoop_map_baseline (opts : Options) (my_tty : Option String)
    (envs : List CycleEnv) :
    (runLoop opts my_tty envs).map CycleResult.baseline =
      envs.map CycleEnv.now := by
  induction envs with
  | nil => rfl
  | cons env rest ih => simp [runLoop, runCycle, ih]

/-- Every cycle's event trace is capture, then sleep, then a scan
against the captured baseline. -/
theorem runLoop_events (opts : Options) (my_tty : Option String)
    (envs : List CycleEnv) :
    ∀ r ∈ runLoop opts my_tty envs,
      r.events = [Event.capture r.baseline,
        Event.sleepFor opts.poll_interval, Event.scan r.baseline] := by
  induction envs with
  | nil => intro r hr; simp [runLoop] at hr
  | cons env rest ih =>
    intro r hr
    simp only [runLoop, List.mem_cons] at hr
    rcases hr with h | h
    · subst h; rfl
    · exact ih r h

/-! ### Claim theorems -/

/-- C1: a scanned session is reportable iff (watch_input is on and the
device's last-input time is ≥ the cycle's previous-poll timestamp) or
(watch_output is on and the last-output time is ≥ that timestamp); the
boundary is inclusive (a last-input time exactly equal to the captured
timestamp is reportable under `-i`), and with neither `-i` nor `-o`
enabled no session is ever reportable. -/
theorem C1_reportable_iff (opts : Options) (st : Stat) (t : Int) :
    (reportable opts st t = true ↔
      ((opts.watch_input = true ∧ st.st_atime ≥ t) ∨
        (opts.watch_output = true ∧ st.st_mtime ≥ t)))
    ∧ (opts.watch_input = true →
        reportable opts { st_atime := t, st_mtime := st.st_mtime } t = true)
    ∧ (opts.watch_input = false → opts.watch_output = false →
        reportable opts st t = false) := by
  refine ⟨?_, ?_, ?_⟩
  · simp [reportable]
  · intro h
    simp [reportable, h]
  · intro h1 h2
    simp [reportable, h1, h2]

/-- Witness for C1: with `-i` only, a last-input time exactly equal to
the baseline is reportable; with neither flag, fresh activity on both
timestamps is not. -/
theorem C1_reportable_iff_witness :
    reportable optsInputOnly ⟨42, 0⟩ 42 = true
    ∧ reportable optsDefaults ⟨1000, 1000⟩ 0 = false :=
  ⟨(C1_reportable_iff optsInputOnly ⟨42, 0⟩ 42).2.1 rfl,
   (C1_reportable_iff optsDefaults ⟨1000, 1000⟩ 0).2.2 rfl rfl⟩

/-- C2: the user filter passes iff the configured set is empty or the
session owner is an exact, case-sensitive member of it; there are no
wildcard or prefix-matching semantics. -/
theorem C2_user_filter_iff (U : List String) (s : String) :
    userFilterPasses U s = true ↔ (U = [] ∨ s ∈ U) := by
  cases U with
  | nil => simp [userFilterPasses]
  | cons a t =>
    simp only [userFilterPasses, List.isEmpty_cons, Bool.not_false,
      Bool.true_and, Bool.not_eq_true']
    cases hst : strstrlist (a :: t) s with
    | none =>
      have hmem := (strstrlist_eq_none_iff (a :: t) s).mp hst
      simp [hmem]
    | some v =>
      have hmem : s ∈ a :: t := by
        by_contra hc
        rw [(strstrlist_eq_none_iff (a :: t) s).mpr hc] at hst
        cases hst
      simp [hmem]

/-- Witness for C2: a two-name set passes its own member. -/
theorem C2_user_filter_iff_witness :
    userFilterPasses ["alice", "bob"] "bob" = true :=
  (C2_user_filter_iff ["alice", "bob"] "bob").mpr (Or.inr (by simp))

/-- C3: a session whose device path equals the process's own
controlling-terminal path is never reported — its scan iteration is
skipped whatever the activity flags, bell flag or user set are, and no
report produced by a whole cycle carries that path. -/
theorem C3_self_tty_never_reported (opts : Options) (my_path : String)
    (statFn : String → Option Stat) (garbage : Stat) (t : Int) :
    (∀ e : UtmpEntry, ttyPathOf e.ut_line = my_path →
      scanEntry opts (some my_path) statFn garbage t e = Except.ok none)
    ∧ (∀ (entries : List UtmpEntry) (rs : List Report),
        scanCycle opts (some my_path) statFn garbage t entries =
          Except.ok rs →
        ∀ r ∈ rs, ttyPathOf r.line ≠ my_path) := by
  constructor
  · intro e he
    by_cases h1 : e.ut_type ≠ USER_PROCESS
    · simp [scanEntry, h1]
    · simp [scanEntry, h1, he.symm]
  · intro entries
    induction entries with
    | nil =>
      intro rs h r hr
      simp only [scanCycle] at h
      cases h
      cases hr
    | cons e es ih =>
      intro rs h r hr
      simp only [scanCycle] at h
      cases hse : scanEntry opts (some my_path) statFn garbage t e with
      | error u => rw [hse] at h; cases h
      | ok o =>
        cases o with
        | none =>
          rw [hse] at h
          exact ih rs h r hr
        | some r0 =>
          rw [hse] at h
          cases hsc : scanCycle opts (some my_path) statFn garbage t es with
          | error u => rw [hsc] at h; cases h
          | ok rs' =>
            rw [hsc] at h
            cases h
            rcases List.mem_cons.mp hr with hr0 | hr'
            · subst hr0
              obtain ⟨hl, hne⟩ := scanEntry_some_inv opts my_path statFn
                garbage t e r hse
              rw [hl]
              exact fun hx => hne hx.symm
            · exact ih rs' hsc r hr'

/-- Witness for C3: a concrete `-i -o -b` configuration with an entry
whose line resolves to the own-terminal path `/dev/pts/7` is skipped. -/
theorem C3_self_tty_never_reported_witness :
    scanEntry optsAllFlags (some "/dev/pts/7")
      (fun _ => some ⟨99, 99⟩) ⟨0, 0⟩ 0
      ⟨7, "pts/7", "alice"⟩ = Except.ok none :=
  (C3_self_tty_never_reported optsAllFlags "/dev/pts/7"
      (fun _ => some ⟨99, 99⟩) ⟨0, 0⟩ 0).1
    ⟨7, "pts/7", "alice"⟩ rfl

/-- C4 (code bug): the C code never checks `stat`'s return value (line
177), so when probing a vanished device fails, the comparison runs on
the uninitialised `tty_stat` buffer.  With `-i`, a failed probe and
stack garbage `st_atime = 999999`, the session IS reported — it is not
"treated as non-reportable". -/
theorem C4_stat_failure_can_report :
    scanEntry optsInputOnly (some "/dev/tty1")
      (fun _ => none) ⟨999999, 0⟩ 100
      ⟨7, "pts/3", "alice"⟩ = Except.ok (some ⟨"pts/3", "alice"⟩) := rfl

/-- C5 (code bug): `options_parse` returns 1 for `-h` (documented in its
own comment as a graceful exit), but `main` treats every non-zero return
as failure, so `actspy -h` prints the usage text, performs no scanning —
and exits with status 1 (`EXIT_FAILURE`), not 0. -/
theorem C5_help_exits_failure :
    main_start ["actspy", "-h"] =
      MainStart.exited 1 (helpText "actspy") "" := rfl

/-- C8 (code bug): when `ttyname` returns NULL at startup, the scan
passes NULL as the first argument of `strcmp` (line 168) for the first
genuine user session — undefined behaviour (a crash), modelled as
`Except.error`, not a safe scan with self-exclusion disabled. -/
theorem C8_null_tty_crashes :
    scanCycle optsInputOnly none
      (fun _ => some ⟨0, 0⟩) ⟨0, 0⟩ 0
      [⟨7, "pts/1", "bob"⟩] = Except.error () := rfl

/-- C6 counterexample: `actspy -t 0` does NOT exit with a failure
status and a diagnostic — `sscanf("%ld")` converts `"0"` successfully,
`options_parse` returns 0 with `poll_interval = 0`, stderr stays empty,
and `main` proceeds into the poll loop. -/
theorem C6_t0_accepted_counterexample :
    main_start ["actspy", "-t", "0"] =
      MainStart.loops optsIntervalZero "" "" := rfl

/-- C6 amended: a non-numeric argument to `-t` (one `sscanf("%ld")`
cannot convert) makes the process exit with failure status, writing a
diagnostic that contains the invalid value, before any poll cycle; but
`-t 0` is accepted — parsing succeeds and 0 is stored as the poll
interval. -/
theorem C6_t_nonnumeric_rejected (s : String)
    (h : sscanf_ld s = ScanfResult.fail) :
    main_start ["actspy", "-t", s] =
      MainStart.exited 1 "" ("Invalid timestamp option -t " ++ s ++ ".\n")
    ∧ main_start ["actspy", "-t", "0"] =
      MainStart.loops optsIntervalZero "" "" := by
  constructor
  · simp [main_start, options_parse, optionsParseGo, parseCluster,
      isOptionElement, h]
  · rfl

/-- Witness for C6's amended claim at the non-numeric value `"abc"`. -/
theorem C6_t_nonnumeric_rejected_witness :
    main_start ["actspy", "-t", "abc"] =
      MainStart.exited 1 "" "Invalid timestamp option -t abc.\n" :=
  (C6_t_nonnumeric_rejected "abc" rfl).1

/-- C9: with a non-decreasing clock, the `last_poll` baseline used by
cycle N+1 is ≥ the one used by cycle N, and within every cycle the
baseline (with its display rendering) is captured first — before the
sleep — and is the value the scan compares against. -/
theorem C9_baseline_monotone (opts : Options) (my_tty : Option String)
    (envs : List CycleEnv)
    (hclock : List.Chain' (fun a b : Int => a ≤ b)
      (envs.map CycleEnv.now)) :
    List.Chain' (fun a b : Int => a ≤ b)
      ((runLoop opts my_tty envs).map CycleResult.baseline)
    ∧ ∀ r ∈ runLoop opts my_tty envs,
        r.events = [Event.capture r.baseline,
          Event.sleepFor opts.poll_interval, Event.scan r.baseline] :=
  ⟨by rw [runLoop_map_baseline]; exact hclock,
   runLoop_events opts my_tty envs⟩

/-- Witness for C9: two cycles observing clock values 5 then 9. -/
theorem C9_baseline_monotone_witness :
    List.Chain' (fun a b : Int => a ≤ b)
      ((runLoop optsDefaults none [envAt 5, envAt 9]).map
        CycleResult.baseline) :=
  (C9_baseline_monotone optsDefaults none [envAt 5, envAt 9]
    (by
      have hmap : List.map CycleEnv.now [envAt 5, envAt 9] = [5, 9] := rfl
      rw [hmap]
      exact List.chain'_cons.mpr ⟨by norm_num, List.chain'_singleton 9⟩)).1

/-- C10: `actspy -t -5` is accepted by option parsing — no diagnostic,
no failure exit, `main` enters the loop with `poll_interval = -5` — and
every cycle's sleep step receives that stored negative interval. -/
theorem C10_negative_interval_accepted :
    main_start ["actspy", "-t", "-5"] =
      MainStart.loops optsIntervalNeg "" ""
    ∧ ∀ now : Int, cycleEvents optsIntervalNeg now =
        [Event.capture now, Event.sleepFor (-5), Event.scan now] :=
  ⟨rfl, fun _ => rfl⟩

/-- Witness for C10 at clock value 100: the cycle's sleep step receives
the stored interval -5. -/
theorem C10_negative_interval_accepted_witness :
    cycleEvents optsIntervalNeg 100 =
      [Event.capture 100, Event.sleepFor (-5), Event.scan 100] :=
  C10_negative_interval_accepted.2 100

end Actspy
